import Mathlib

/-!
Shallow embedding of the diameter-parser pipeline (src/main.go) and proofs
of the specified properties.

Bytes are modelled as `Nat` values; every byte produced by the packet layer
is below 256, and all nibble arithmetic is expressed with `% 16` and
`/ 16 % 16`, matching Go's `b & 0x0F` and `(b & 0xF0) >> 4` on `uint8`.
External collaborators (the naming dictionary, the grouped-AVP codec and the
message parser of the go-diameter library) are modelled as function
parameters, exactly as the spec treats them: opaque lookup interfaces.
-/

namespace DiameterParser

/-- Decimal rendering of a nibble value, as Go's `fmt.Sprintf("%d", x)`
produces for a `uint8`: the decimal digits of the number, so values 10..15
render as two characters. -/
def digitStr (n : Nat) : String := toString n

/-- Lowercase hexadecimal digit for a value below 16, as produced by Go's
`%x` verb. -/
def hexDigit (n : Nat) : Char :=
  if n < 10 then Char.ofNat (48 + n) else Char.ofNat (87 + n)

/-- Two-digit lowercase hexadecimal rendering of one byte, as Go's `%x`
verb produces for each element of a `[]byte`. -/
def byteHex (b : Nat) : String :=
  String.mk [hexDigit (b / 16 % 16), hexDigit (b % 16)]

/-- Lowercase hexadecimal rendering of a byte string, as Go's
`fmt.Sprintf("%x", b)` for `b : []byte`: two hex digits per byte,
concatenated. -/
def hexBytes (bs : List Nat) : String :=
  String.join (bs.map byteHex)

/-- The `PLMN` struct of src/main.go: decoded MCC and MNC strings plus the
raw bytes in hexadecimal. -/
structure PLMN where
  MCC : String
  MNC : String
  Hex : String
deriving Repr, DecidableEq

/-- Embedding of `decodePLMN` (src/main.go:248-274).  Returns `none` for
inputs shorter than 3 bytes; otherwise extracts the six BCD nibbles,
formats MCC from (b0 low, b0 high, b1 low) and MNC from either
(b2 low, b2 high) when the byte-1 high nibble is the 0xF filler, or
(b2 low, b2 high, b1 high) otherwise, each nibble rendered in decimal. -/
def decodePLMN (b : List Nat) : Option PLMN :=
  match b with
  | b0 :: b1 :: b2 :: _ =>
    let mccDigit1 := b0 % 16
    let mccDigit2 := b0 / 16 % 16
    let mccDigit3 := b1 % 16
    let mncDigit3 := b1 / 16 % 16
    let mncDigit1 := b2 % 16
    let mncDigit2 := b2 / 16 % 16
    let mcc := digitStr mccDigit1 ++ digitStr mccDigit2 ++ digitStr mccDigit3
    let mnc :=
      if mncDigit3 = 15 then
        digitStr mncDigit1 ++ digitStr mncDigit2
      else
        digitStr mncDigit1 ++ digitStr mncDigit2 ++ digitStr mncDigit3
    some { MCC := mcc, MNC := mnc, Hex := hexBytes b }
  | _ => none

/-- Raw typed AVP values as delivered by the external codec
(`datatype.Type` of the go-diameter library).  Textual kinds carry their
string content and the address kinds carry their textual presentation form
(Go calls `.String()` on them).  The two float kinds are omitted: they are
floating point, outside the embedding, and no claim touches them; every
kind relevant to a claim (octet strings and grouped values) is present. -/
inductive DiamValue where
  | utf8String (s : String)
  | diameterIdentity (s : String)
  | octetString (b : List Nat)
  | address (s : String)
  | integer32 (i : Int)
  | unsigned32 (n : Nat)
  | integer64 (i : Int)
  | unsigned64 (n : Nat)
  | ipv4 (s : String)
  | ipv6 (s : String)
  | grouped (raw : List Nat)
deriving Repr, DecidableEq

/-- One decoded AVP as delivered by the external codec (`diam.AVP`):
code, vendor id and raw typed data. -/
structure AVP where
  code : Nat
  vendorID : Nat
  data : DiamValue
deriving Repr, DecidableEq

mutual

/-- JSON-friendly values: the codomain of the enrichment.  Go stores these
in an `interface{}`; the closed set of shapes that actually flow into it is
a string, a byte slice, a signed or unsigned integer, a `*PLMN`, or a
`GroupedData` holding nested `AVPInfo` records. -/
inductive JSONValue where
  | str (s : String)
  | bytes (b : List Nat)
  | intVal (i : Int)
  | natVal (n : Nat)
  | plmn (p : PLMN)
  | groupedData (avps : List AVPInfo)

/-- The `AVPInfo` struct of src/main.go: code, vendor id, resolved name and
JSON-friendly data. -/
inductive AVPInfo where
  | mk (code : Nat) (vendorID : Nat) (name : String) (data : JSONValue)

end

/-- Code field of an `AVPInfo`. -/
def AVPInfo.code : AVPInfo → Nat
  | .mk c _ _ _ => c

/-- Vendor-id field of an `AVPInfo`. -/
def AVPInfo.vendorID : AVPInfo → Nat
  | .mk _ v _ _ => v

/-- Name field of an `AVPInfo`. -/
def AVPInfo.name : AVPInfo → String
  | .mk _ _ n _ => n

/-- Data field of an `AVPInfo`. -/
def AVPInfo.data : AVPInfo → JSONValue
  | .mk _ _ _ d => d

/-- Whether a `JSONValue` is a nested grouped-AVP list. -/
def JSONValue.isGroupedData : JSONValue → Bool
  | .groupedData _ => true
  | _ => false

/-- Modelled from the spec and the external go-diameter `dict` package
(not under src/): the dictionary's "undefined vendor" marker value
`dict.UndefinedVendorID`, a fixed sentinel distinct from every real vendor
id, substituted when an AVP carries no vendor-specific scoping. -/
def UndefinedVendorID : Nat := 4294967295

/-- A dictionary lookup interface: the external
`d.FindAVPWithVendor(appID, code, vendorID)`, returning the found
definition's name or a miss.  `Option` carries Go's
`err == nil && avpDef != nil` success condition. -/
def DictFind : Type := Nat → Nat → Nat → Option String

/-- Embedding of `avpNameFromDict` (src/main.go:136-154): substitute the
undefined-vendor marker when `vendorID` is 0, try the app-scoped lookup,
fall back to the base application (id 0), and return the empty string when
both miss. -/
def avpNameFromDict (d : DictFind) (appID code vendorID : Nat) : String :=
  let v := if vendorID = 0 then UndefinedVendorID else vendorID
  match d appID code v with
  | some name => name
  | none =>
    match d 0 code v with
    | some name => name
    | none => ""

/-- Embedding of `avpToJSONValue` (src/main.go:157-188): the canonical
conversion of each raw kind; a grouped value that stays generic becomes the
lowercase hexadecimal string of its raw bytes. -/
def avpToJSONValue : DiamValue → JSONValue
  | .utf8String s => .str s
  | .diameterIdentity s => .str s
  | .octetString b => .bytes b
  | .address s => .str s
  | .integer32 i => .intVal i
  | .unsigned32 n => .natVal n
  | .integer64 i => .intVal i
  | .unsigned64 n => .natVal n
  | .ipv4 s => .str s
  | .ipv6 s => .str s
  | .grouped raw => .str (hexBytes raw)

/-- A grouped-AVP decoding interface: the external
`diam.DecodeGrouped(raw, appID, d)`, returning the child AVP list or a
failure.  `Option` carries Go's `err == nil && ga != nil` condition. -/
def DecodeGrouped : Type := List Nat → Nat → Option (List AVP)

/-- Embedding of the loop body of `avpsToInfoList` (src/main.go:277-299):
the enrichment applied to each child of a decoded grouped AVP.  It resolves
the name, converts the value generically, and applies the PLMN semantic
decoder when the name matches; it does not attempt to decode grouped
children. -/
def enrichChildAVP (d : DictFind) (appID : Nat) (a : AVP) : AVPInfo :=
  let name := avpNameFromDict d appID a.code a.vendorID
  let data := avpToJSONValue a.data
  let data :=
    if name = "Visited-PLMN-Id" then
      match a.data with
      | .octetString os =>
        match decodePLMN os with
        | some p => .plmn p
        | none => data
      | _ => data
    else data
  .mk a.code a.vendorID name data

/-- Embedding of `avpsToInfoList` (src/main.go:277-299): the Go loop
appends one enriched record per child in order, i.e. a map. -/
def avpsToInfoList (d : DictFind) (appID : Nat) (avps : List AVP) :
    List AVPInfo :=
  avps.map (enrichChildAVP d appID)

/-- Embedding of the per-AVP body of the main loop (src/main.go:93-123):
resolve the name, convert generically, then either expand a grouped value
whose decode succeeds into `GroupedData` of the enriched children, or apply
the PLMN semantic decoder when the value is not grouped and the name
matches. -/
def enrichTopAVP (d : DictFind) (dg : DecodeGrouped) (appID : Nat)
    (a : AVP) : AVPInfo :=
  let name := avpNameFromDict d appID a.code a.vendorID
  let data := avpToJSONValue a.data
  let data :=
    match a.data with
    | .grouped g =>
      match dg g appID with
      | some children => .groupedData (avpsToInfoList d appID children)
      | none => data
    | _ =>
      if name = "Visited-PLMN-Id" then
        match a.data with
        | .octetString os =>
          match decodePLMN os with
          | some p => .plmn p
          | none => data
        | _ => data
      else data
  .mk a.code a.vendorID name data

/-- Embedding of `commandCodeName` (src/main.go:191-205). -/
def commandCodeName (code : Nat) : String :=
  if code = 316 then "Update-Location (ULR/ULA)"
  else if code = 317 then "Cancel-Location (CLR/CLA)"
  else if code = 318 then "Authentication-Information (AIR/AIA)"
  else if code = 319 then "Insert-Subscriber-Data (IDR/IDA)"
  else ""

/-- Embedding of `applicationName` (src/main.go:208-218). -/
def applicationName (id : Nat) : String :=
  if id = 0 then "Diameter Base"
  else if id = 16777251 then "S6a/S6d"
  else ""

/-- Embedding of `commandFlagsName` (src/main.go:221-246): build the string
left to right, appending a pipe before every token after the first. -/
def commandFlagsName (f : Nat) : String :=
  let s := ""
  let s := if f &&& 0x80 ≠ 0 then s ++ "R" else s
  let s :=
    if f &&& 0x40 ≠ 0 then (if s ≠ "" then s ++ "|" else s) ++ "P" else s
  let s :=
    if f &&& 0x20 ≠ 0 then (if s ≠ "" then s ++ "|" else s) ++ "E" else s
  let s :=
    if f &&& 0x10 ≠ 0 then (if s ≠ "" then s ++ "|" else s) ++ "T" else s
  s

/-- Header and AVP list of one parsed message, as delivered by the external
`diam.ReadMessage`. -/
structure Message where
  commandCode : Nat
  commandFlags : Nat
  applicationID : Nat
  hopByHopID : Nat
  endToEndID : Nat
  avps : List AVP

/-- The `MessageInfo` record of src/main.go: the per-message output. -/
structure MessageInfo where
  commandCode : Nat
  commandCodeName : String
  commandFlags : Nat
  commandFlagsName : String
  applicationID : Nat
  applicationName : String
  hopByHopID : Nat
  endToEndID : Nat
  avps : List AVPInfo

/-- Embedding of the per-message part of the main loop
(src/main.go:82-123): copy the header fields, derive the display strings,
and enrich every AVP in wire order. -/
def processMessage (d : DictFind) (dg : DecodeGrouped) (msg : Message) :
    MessageInfo :=
  { commandCode := msg.commandCode
    commandCodeName := commandCodeName msg.commandCode
    commandFlags := msg.commandFlags
    commandFlagsName := commandFlagsName msg.commandFlags
    applicationID := msg.applicationID
    applicationName := applicationName msg.applicationID
    hopByHopID := msg.hopByHopID
    endToEndID := msg.endToEndID
    avps := msg.avps.map (enrichTopAVP d dg msg.applicationID) }

/-- A captured packet as seen by the main loop: its application layer, when
present, is a byte payload.  `none` models
`packet.ApplicationLayer() == nil`. -/
structure Packet where
  appLayer : Option (List Nat)

/-- A message-parsing interface: the external
`diam.ReadMessage(payload, d)`, returning a parsed message or a failure. -/
def ParseMessage : Type := List Nat → Option Message

/-- Embedding of one iteration of the main packet loop
(src/main.go:64-131): skip packets without an application layer, skip empty
payloads, skip payloads that fail to parse, and otherwise produce one
output record. -/
def processPacket (parse : ParseMessage) (d : DictFind)
    (dg : DecodeGrouped) (pkt : Packet) : Option MessageInfo :=
  match pkt.appLayer with
  | none => none
  | some payload =>
    if payload.length = 0 then none
    else
      match parse payload with
      | none => none
      | some msg => some (processMessage d dg msg)

/-- Embedding of the whole main loop (src/main.go:64-132): one output
record per packet whose payload parses, in order. -/
def runPipeline (parse : ParseMessage) (d : DictFind) (dg : DecodeGrouped)
    (pkts : List Packet) : List MessageInfo :=
  pkts.filterMap (processPacket parse d dg)

/-- A dictionary in which every lookup misses. -/
def emptyDict : DictFind := fun _ _ _ => none

/-- A dictionary in which every lookup resolves to the PLMN trigger name. -/
def plmnDict : DictFind := fun _ _ _ => some "Visited-PLMN-Id"

/-- A concrete grouped-AVP codec with nesting: raw value [1] decodes to a
single child that is itself grouped with raw value [2], and raw value [2]
decodes to a single leaf child. -/
def nestedCodec : DecodeGrouped := fun g _ =>
  if g = [1] then some [AVP.mk 10 0 (.grouped [2])]
  else if g = [2] then some [AVP.mk 20 0 (.utf8String "x")]
  else none

/-- A grouped-AVP codec that always fails. -/
def failCodec : DecodeGrouped := fun _ _ => none

/-- A message parser that always fails. -/
def failParse : ParseMessage := fun _ => none

/-- A `decodePLMN` input shorter than 3 bytes is rejected. -/
theorem decodePLMN_eq_none_of_short (b : List Nat) (h : b.length < 3) :
    decodePLMN b = none := by
  match b with
  | [] => rfl
  | [_] => rfl
  | [_, _] => rfl
  | _ :: _ :: _ :: _ => simp [List.length_cons] at h; omega

/-- Claim C1, counterexample: on the input bytes 0x00 0x10 0x32 the byte-1
high nibble is 1 (not the 0xF filler), so the claim's 3-digit rule
(byte-1-high, byte-2-low, byte-2-high) would give "123"; the code returns
"231", because it orders the digits byte-2-low, byte-2-high, byte-1-high. -/
theorem plmn_digit_order_counterexample :
    (decodePLMN [0x00, 0x10, 0x32]).map PLMN.MNC = some "231" ∧
    (decodePLMN [0x00, 0x10, 0x32]).map PLMN.MNC ≠ some "123" := by
  exact ⟨rfl, by decide⟩

/-- Claim C1 as amended: for every input of length at least 3, the first
identifier is the decimal renderings of byte-0-low, byte-0-high,
byte-1-low, in that order; the second identifier is byte-2-low then
byte-2-high when the byte-1 high nibble is the 0xF filler, and otherwise
byte-2-low, byte-2-high, byte-1-high, in that order. -/
theorem plmn_digit_order (b0 b1 b2 : Nat) (rest : List Nat) :
    ∃ p : PLMN,
      decodePLMN (b0 :: b1 :: b2 :: rest) = some p ∧
      p.MCC = digitStr (b0 % 16) ++ digitStr (b0 / 16 % 16) ++
        digitStr (b1 % 16) ∧
      p.MNC = (if b1 / 16 % 16 = 15 then
          digitStr (b2 % 16) ++ digitStr (b2 / 16 % 16)
        else
          digitStr (b2 % 16) ++ digitStr (b2 / 16 % 16) ++
            digitStr (b1 / 16 % 16)) :=
  ⟨_, rfl, rfl, rfl⟩

/-- Claim C3, counterexample: on the input bytes 0x21 0x43 0xF5 the code
returns identifiers "123" and "5154" — the byte-1 high nibble is 4, not the
0xF filler, so the 3-digit branch runs and renders the nibble value 15 as
"15" — not the claimed "124" and "35". -/
theorem plmn_example_counterexample :
    decodePLMN [0x21, 0x43, 0xF5] = some ⟨"123", "5154", "2143f5"⟩ ∧
    (decodePLMN [0x21, 0x43, 0xF5]).map PLMN.MCC ≠ some "124" ∧
    (decodePLMN [0x21, 0x43, 0xF5]).map PLMN.MNC ≠ some "35" := by
  exact ⟨rfl, by decide, by decide⟩

/-- Claim C3 as amended: the decoder applied to 0x21 0x43 0xF5 returns the
identifiers "123" and "5154" (3-digit branch, since the byte-1 high nibble
is 4), and applied to 0x21 0x43 0x65 returns "123" and "564". -/
theorem plmn_concrete_examples :
    decodePLMN [0x21, 0x43, 0xF5] = some ⟨"123", "5154", "2143f5"⟩ ∧
    decodePLMN [0x21, 0x43, 0x65] = some ⟨"123", "564", "214365"⟩ :=
  ⟨rfl, rfl⟩

/-- Claim C9: a 3-byte input with a nibble value above 9 (here byte-0-low
is 0xF, away from the byte-1-high filler check) still decodes to a record;
the nibble renders as the two-character "15", so the first identifier has 4
characters rather than 3. -/
theorem plmn_nibble_over_nine :
    ∃ p : PLMN, decodePLMN [0x2F, 0x43, 0x65] = some p ∧
      p.MCC = "15" ++ "2" ++ "3" ∧ p.MCC.length = 4 := by
  exact ⟨_, rfl, rfl, by decide⟩

/-- Claim C4: with vendorId 0 the resolver substitutes the undefined-vendor
marker; a hit on (appId, code, marker) returns that name, a miss followed
by a hit on (0, code, marker) returns the base-application name, and two
misses return the empty string — never an error. -/
theorem dict_vendor_fallback (d : DictFind) (appID code : Nat) :
    (∀ name, d appID code UndefinedVendorID = some name →
      avpNameFromDict d appID code 0 = name) ∧
    (d appID code UndefinedVendorID = none →
      ∀ name, d 0 code UndefinedVendorID = some name →
        avpNameFromDict d appID code 0 = name) ∧
    (d appID code UndefinedVendorID = none →
      d 0 code UndefinedVendorID = none →
      avpNameFromDict d appID code 0 = "") := by
  refine ⟨fun name h => ?_, fun h1 name h2 => ?_, fun h1 h2 => ?_⟩ <;>
    simp [avpNameFromDict, *]

/-- Witness for claim C4 at three concrete dictionaries: one that always
hits, one that hits only for application id 0, and one that always
misses. -/
theorem dict_vendor_fallback_witness :
    avpNameFromDict (fun _ _ _ => some "A") 3 7 0 = "A" ∧
    avpNameFromDict (fun a _ _ => if a = 0 then some "B" else none) 3 7 0
      = "B" ∧
    avpNameFromDict (fun _ _ _ => none) 3 7 0 = "" :=
  ⟨(dict_vendor_fallback (fun _ _ _ => some "A") 3 7).1 "A" rfl,
   (dict_vendor_fallback (fun a _ _ => if a = 0 then some "B" else none)
      3 7).2.1 rfl "B" rfl,
   (dict_vendor_fallback (fun _ _ _ => none) 3 7).2.2 rfl rfl⟩

/-- Claim C5: the command-flags string is the pipe-joined list of the
tokens R, P, E, T, each present iff its bit (0x80, 0x40, 0x20, 0x10) is
set, in that fixed order, and it is empty iff none of those four bits is
set; no other bit contributes a token. -/
theorem command_flags_tokens (f : Nat) :
    commandFlagsName f =
      String.intercalate "|"
        ((if f &&& 0x80 ≠ 0 then ["R"] else []) ++
         (if f &&& 0x40 ≠ 0 then ["P"] else []) ++
         (if f &&& 0x20 ≠ 0 then ["E"] else []) ++
         (if f &&& 0x10 ≠ 0 then ["T"] else [])) ∧
    (commandFlagsName f = "" ↔
      f &&& 0x80 = 0 ∧ f &&& 0x40 = 0 ∧ f &&& 0x20 = 0 ∧ f &&& 0x10 = 0) := by
  by_cases h1 : f &&& 0x80 = 0 <;> by_cases h2 : f &&& 0x40 = 0 <;>
    by_cases h3 : f &&& 0x20 = 0 <;> by_cases h4 : f &&& 0x10 = 0 <;>
    refine ⟨?_, ?_⟩ <;>
    simp [commandFlagsName, String.intercalate, h1, h2, h3, h4] <;>
    decide

/-- Claim C2, counterexample: under `nestedCodec` the raw value [2] of the
inner grouped child is decodable, yet the enrichment of the outer grouped
AVP leaves that child as the generic hexadecimal conversion "02" — the
child-enrichment does not call the grouped decoding on children, so no
nested enriched list appears below the first level. -/
theorem grouped_child_not_recursed_counterexample :
    (nestedCodec [2] 7).isSome = true ∧
    (enrichTopAVP emptyDict nestedCodec 7
        (AVP.mk 5 0 (DiamValue.grouped [1]))).data =
      JSONValue.groupedData [AVPInfo.mk 10 0 "" (JSONValue.str "02")] ∧
    JSONValue.isGroupedData (JSONValue.str "02") = false :=
  ⟨rfl, rfl, rfl⟩

/-- Claim C2 as amended: a top-level grouped AVP whose child decode
succeeds is expanded into the one-level enriched child list, but the
child-enrichment does not call itself on grouped children — a grouped
child always keeps the generic hexadecimal byte-string conversion,
whatever its raw value would decode to. -/
theorem grouped_enrichment_one_level (d : DictFind) (dg : DecodeGrouped)
    (appID : Nat) (a : AVP) (g : List Nat) (children : List AVP)
    (hdata : a.data = .grouped g) (hdg : dg g appID = some children) :
    (enrichTopAVP d dg appID a).data =
      .groupedData (children.map (enrichChildAVP d appID)) ∧
    ∀ (c : AVP) (gc : List Nat), c.data = .grouped gc →
      (enrichChildAVP d appID c).data = .str (hexBytes gc) := by
  constructor
  · obtain ⟨code, vid, dt⟩ := a
    replace hdata : dt = DiamValue.grouped g := hdata
    subst hdata
    simp [enrichTopAVP, avpsToInfoList, hdg, AVPInfo.data]
  · intro c gc hc
    obtain ⟨cc, cv, cd⟩ := c
    replace hc : cd = DiamValue.grouped gc := hc
    subst hc
    by_cases hn : avpNameFromDict d appID cc cv = "Visited-PLMN-Id" <;>
      simp [enrichChildAVP, hn, avpToJSONValue, AVPInfo.data]

/-- Witness for claim C2's amended theorem at the concrete nested codec:
the outer grouped AVP with raw value [1] decodes and is expanded one
level, and a grouped child with raw value [2] keeps the generic
hexadecimal conversion. -/
theorem grouped_enrichment_one_level_witness :
    (AVP.mk 5 0 (DiamValue.grouped [1])).data = DiamValue.grouped [1] ∧
    nestedCodec [1] 7 = some [AVP.mk 10 0 (.grouped [2])] ∧
    (enrichTopAVP emptyDict nestedCodec 7
        (AVP.mk 5 0 (DiamValue.grouped [1]))).data =
      .groupedData
        ([AVP.mk 10 0 (.grouped [2])].map (enrichChildAVP emptyDict 7)) ∧
    (enrichChildAVP emptyDict 7 (AVP.mk 10 0 (.grouped [2]))).data =
      .str (hexBytes [2]) := by
  have h := grouped_enrichment_one_level emptyDict nestedCodec 7
    (AVP.mk 5 0 (DiamValue.grouped [1])) [1] [AVP.mk 10 0 (.grouped [2])]
    rfl rfl
  exact ⟨rfl, rfl, h.1, h.2 (AVP.mk 10 0 (.grouped [2])) [2] rfl⟩

/-- Claim C6: a grouped AVP whose child decode succeeds yields a nested
enriched list with exactly one entry per child, pointwise the enrichment
of the child at the same position — length and wire order preserved. -/
theorem grouped_round_trip (d : DictFind) (dg : DecodeGrouped)
    (appID : Nat) (a : AVP) (g : List Nat) (children : List AVP)
    (hdata : a.data = .grouped g) (hdg : dg g appID = some children) :
    ∃ l : List AVPInfo,
      (enrichTopAVP d dg appID a).data = .groupedData l ∧
      l.length = children.length ∧
      (∀ i : Nat, l[i]? = (children[i]?).map (enrichChildAVP d appID)) ∧
      (∀ c : AVP, (enrichChildAVP d appID c).code = c.code ∧
        (enrichChildAVP d appID c).vendorID = c.vendorID) := by
  obtain ⟨code, vid, dt⟩ := a
  replace hdata : dt = DiamValue.grouped g := hdata
  subst hdata
  refine ⟨avpsToInfoList d appID children, ?_, ?_, ?_, ?_⟩
  · simp [enrichTopAVP, hdg, AVPInfo.data]
  · simp [avpsToInfoList]
  · intro i
    simp [avpsToInfoList]
  · intro c
    exact ⟨rfl, rfl⟩

/-- Witness for claim C6 at the concrete nested codec: the grouped AVP
with raw value [1] decodes to one child, and the enriched list matches it
pointwise. -/
theorem grouped_round_trip_witness :
    (AVP.mk 5 0 (DiamValue.grouped [1])).data = DiamValue.grouped [1] ∧
    nestedCodec [1] 7 = some [AVP.mk 10 0 (.grouped [2])] ∧
    ∃ l : List AVPInfo,
      (enrichTopAVP emptyDict nestedCodec 7
          (AVP.mk 5 0 (DiamValue.grouped [1]))).data = .groupedData l ∧
      l.length = [AVP.mk 10 0 (DiamValue.grouped [2])].length ∧
      (∀ i : Nat, l[i]? = ([AVP.mk 10 0 (DiamValue.grouped [2])][i]?).map
        (enrichChildAVP emptyDict 7)) ∧
      (∀ c : AVP, (enrichChildAVP emptyDict 7 c).code = c.code ∧
        (enrichChildAVP emptyDict 7 c).vendorID = c.vendorID) :=
  ⟨rfl, rfl,
   grouped_round_trip emptyDict nestedCodec 7
     (AVP.mk 5 0 (DiamValue.grouped [1])) [1]
     [AVP.mk 10 0 (.grouped [2])] rfl rfl⟩

/-- Claim C7: when the PLMN trigger fires on a raw byte string of fewer
than 3 bytes, the decoder reports not-applicable, the generic byte-string
conversion is kept for that one attribute (in both the top-level and the
child enrichment), and the enclosing message still yields a record with
one entry per attribute. -/
theorem plmn_short_input_degrades (d : DictFind) (dg : DecodeGrouped)
    (appID : Nat) (a : AVP) (os : List Nat)
    (hname : avpNameFromDict d appID a.code a.vendorID = "Visited-PLMN-Id")
    (hdata : a.data = .octetString os) (hlen : os.length < 3) :
    decodePLMN os = none ∧
    (enrichTopAVP d dg appID a).data = .bytes os ∧
    (enrichChildAVP d appID a).data = .bytes os ∧
    ∀ msg : Message, a ∈ msg.avps →
      (processMessage d dg msg).avps.length = msg.avps.length := by
  have hnone : decodePLMN os = none := decodePLMN_eq_none_of_short os hlen
  obtain ⟨code, vid, dt⟩ := a
  replace hdata : dt = DiamValue.octetString os := hdata
  subst hdata
  refine ⟨hnone, ?_, ?_, ?_⟩
  · simp only [enrichTopAVP, AVPInfo.data]
    simp [hname, hnone, avpToJSONValue]
  · simp only [enrichChildAVP, AVPInfo.data]
    simp [hname, hnone, avpToJSONValue]
  · intro msg _
    simp [processMessage, List.length_map]

/-- Witness for claim C7: a 2-byte PLMN attribute under a dictionary that
resolves it to the trigger name keeps its raw bytes, and a singleton
message still yields one enriched attribute. -/
theorem plmn_short_input_degrades_witness :
    avpNameFromDict plmnDict 0 1 0 = "Visited-PLMN-Id" ∧
    (AVP.mk 1 0 (DiamValue.octetString [1, 2])).data =
      DiamValue.octetString [1, 2] ∧
    [1, 2].length < 3 ∧
    decodePLMN [1, 2] = none ∧
    (enrichTopAVP plmnDict failCodec 0
        (AVP.mk 1 0 (DiamValue.octetString [1, 2]))).data = .bytes [1, 2] ∧
    (processMessage plmnDict failCodec
        (Message.mk 316 0 0 0 0 [AVP.mk 1 0 (DiamValue.octetString [1, 2])])
      ).avps.length = 1 := by
  have h := plmn_short_input_degrades plmnDict failCodec 0
    (AVP.mk 1 0 (DiamValue.octetString [1, 2])) [1, 2] rfl rfl (by decide)
  refine ⟨rfl, rfl, by decide, h.1, h.2.1, ?_⟩
  exact h.2.2.2 (Message.mk 316 0 0 0 0
    [AVP.mk 1 0 (DiamValue.octetString [1, 2])]) (by decide)

/-- Claim C8: the pipeline is deterministic — with the same parser,
dictionary and grouped codec, two runs over the same payload sequence
produce identical output records.  The embedding is a pure function of its
inputs, mirroring the source, whose loop keeps no state across packets
beyond the read-only dictionary. -/
theorem pipeline_deterministic (parse : ParseMessage) (d : DictFind)
    (dg : DecodeGrouped) (ps1 ps2 : List Packet) (h : ps1 = ps2) :
    runPipeline parse d dg ps1 = runPipeline parse d dg ps2 := by
  rw [h]

/-- Witness for claim C8 at a concrete one-packet sequence. -/
theorem pipeline_deterministic_witness :
    [Packet.mk (some [1])] = [Packet.mk (some [1])] ∧
    runPipeline failParse emptyDict failCodec [Packet.mk (some [1])] =
      runPipeline failParse emptyDict failCodec [Packet.mk (some [1])] :=
  ⟨rfl, pipeline_deterministic failParse emptyDict failCodec
    [Packet.mk (some [1])] [Packet.mk (some [1])] rfl⟩

/-- Claim C10: a packet with no application layer, or with an empty
application-layer payload, is skipped before any parse is attempted — for
every parser it contributes no output record, and the pipeline's output on
the remaining packets is unchanged. -/
theorem skip_packets_without_payload (parse : ParseMessage) (d : DictFind)
    (dg : DecodeGrouped) (pkt : Packet) (rest : List Packet)
    (h : pkt.appLayer = none ∨ pkt.appLayer = some []) :
    processPacket parse d dg pkt = none ∧
    runPipeline parse d dg (pkt :: rest) = runPipeline parse d dg rest := by
  have hp : processPacket parse d dg pkt = none := by
    rcases h with h | h <;> simp [processPacket, h]
  refine ⟨hp, ?_⟩
  simp [runPipeline, List.filterMap_cons, hp]

/-- Witness for claim C10 at two concrete packets: one without an
application layer and one with an empty payload. -/
theorem skip_packets_without_payload_witness :
    ((Packet.mk none).appLayer = none ∨
      (Packet.mk none).appLayer = some []) ∧
    processPacket failParse emptyDict failCodec (Packet.mk none) = none ∧
    runPipeline failParse emptyDict failCodec [Packet.mk none] =
      runPipeline failParse emptyDict failCodec [] ∧
    processPacket failParse emptyDict failCodec (Packet.mk (some [])) =
      none := by
  have h1 := skip_packets_without_payload failParse emptyDict failCodec
    (Packet.mk none) [] (Or.inl rfl)
  have h2 := skip_packets_without_payload failParse emptyDict failCodec
    (Packet.mk (some [])) [] (Or.inr rfl)
  exact ⟨Or.inl rfl, h1.1, h1.2, h2.1⟩

end DiameterParser
